import Mathlib

/-!
Shallow embedding of the Go user-management service
(oteltracer / otelapi variants): data model, span handle semantics,
repository operations over the `go_user_tbl` table, HTTP handlers and
the dispatcher closure registered for the `/users/` route.

Machine integers are modelled as `Int`/`Nat`; timestamps are abstract
`Nat` values supplied for `time.Now()`; the SQL statements of the
repository are embedded as pure functions on a list of rows.
-/

namespace GoOtel

/-- A row of `go_user_tbl` (struct `User` in models.go). -/
structure User where
  username : String
  name : String
  email : String
  age : Int
  createdAt : Nat
  updatedAt : Nat
deriving DecidableEq, Repr

/-- Request body for POST /users (struct `CreateUserRequest`). -/
structure CreateUserRequest where
  username : String
  name : String
  email : String
  age : Int
deriving DecidableEq, Repr

/-- Request body for PUT /users/{username} (struct `UpdateUserRequest`). -/
structure UpdateUserRequest where
  name : String
  email : String
  age : Int
deriving DecidableEq, Repr

/-- The backing store: the rows of `go_user_tbl`. -/
abbrev Table := List User

/-- A span handle as observed through the OpenTelemetry API surface the
code uses: trace/span identity, recording flag, parent linkage, the
attributes set so far and the errors recorded so far. -/
structure SpanData where
  traceId : Nat
  spanId : Nat
  parent : Option Nat
  recording : Bool
  spanName : String
  attrs : List (String × String)
  errors : List String
deriving DecidableEq, Repr

/-- Modelled from the spec: the singleton no-op span handle returned by
the Span Handle Registry when no ambient span exists — all-zero
identity, not recording. -/
def noopSpan : SpanData :=
  { traceId := 0, spanId := 0, parent := none, recording := false
    spanName := "", attrs := [], errors := [] }

/-- The carrier (`context.Context`): the ambient span, if any. -/
structure Ctx where
  ambient : Option SpanData
deriving DecidableEq, Repr

/-- The empty carrier: no ambient span was ever established. -/
def ctxEmpty : Ctx := { ambient := none }

/-- Modelled from the spec: `trace.SpanFromContext` — returns the
ambient handle when present, otherwise the no-op handle. Always
succeeds, no side effects. -/
def spanFromContext (ctx : Ctx) : SpanData :=
  ctx.ambient.getD noopSpan

/-- Modelled from the spec: `span.SetAttributes` for a single
attribute — on a recording span the value for the name is overwritten
(re-setting the same name overwrites the prior value); on a
non-recording handle the call is a silent discard. -/
def setAttr (sp : SpanData) (k v : String) : SpanData :=
  if sp.recording then
    { sp with attrs := (sp.attrs.filter (fun p => p.fst != k)) ++ [(k, v)] }
  else sp

/-- `span.SetAttributes` over a list of attributes, applied in call
order. -/
def setAttributes (sp : SpanData) (l : List (String × String)) : SpanData :=
  l.foldl (fun s p => setAttr s p.fst p.snd) sp

/-- Modelled from the spec: `span.RecordError` — appends the failure
description on a recording span; silent discard on a no-op handle.
Never terminates the span. -/
def recordErrorSpan (sp : SpanData) (e : String) : SpanData :=
  if sp.recording then { sp with errors := sp.errors ++ [e] } else sp

/-- Modelled from the spec: `tracer.Start(ctx, name)` — with an ambient
handle the new span is its child and inherits the trace identity; with
no ambient handle the new span is a root with a freshly minted trace
identity. The fresh identifiers minted by the SDK are passed in
explicitly. -/
def startSpan (ctx : Ctx) (nm : String) (freshTrace freshSpan : Nat) :
    Ctx × SpanData :=
  match ctx.ambient with
  | none =>
      let sp : SpanData :=
        { traceId := freshTrace, spanId := freshSpan, parent := none
          recording := true, spanName := nm, attrs := [], errors := [] }
      ({ ambient := some sp }, sp)
  | some p =>
      let sp : SpanData :=
        { traceId := p.traceId, spanId := freshSpan, parent := some p.spanId
          recording := true, spanName := nm, attrs := [], errors := [] }
      ({ ambient := some sp }, sp)

/-- `SELECT ... FROM go_user_tbl WHERE username = $1` followed by
`Scan`: the first row whose `username` matches, if any (`username` is
the primary key, so at most one row matches). -/
def findUser (t : Table) (u : String) : Option User :=
  t.find? (fun v => v.username == u)

/-- `INSERT INTO go_user_tbl ... VALUES ($1,...,$5,$6) RETURNING ...`:
fails on a primary-key or unique-constraint violation (`username`
primary key, `email` unique), otherwise appends the new row and
returns it. -/
def sqlInsertUser (t : Table) (req : CreateUserRequest) (now : Nat) :
    Except String (User × Table) :=
  if t.any (fun v => v.username == req.username) then
    Except.error "duplicate key value violates unique constraint"
  else if t.any (fun v => v.email == req.email) then
    Except.error "duplicate key value violates unique constraint"
  else
    let u : User :=
      { username := req.username, name := req.name, email := req.email
        age := req.age, createdAt := now, updatedAt := now }
    Except.ok (u, t ++ [u])

/-- The row transformation of
`UPDATE go_user_tbl SET name = $1, email = $2, age = $3, updated_at = $4`. -/
def applyUpd (req : UpdateUserRequest) (now : Nat) (v : User) : User :=
  { v with name := req.name, email := req.email, age := req.age
           updatedAt := now }

/-- `UPDATE ... WHERE username = $5` applied to the whole table. -/
def updateTable (t : Table) (u : String) (req : UpdateUserRequest)
    (now : Nat) : Table :=
  t.map (fun v => if v.username == u then applyUpd req now v else v)

/-- `DELETE FROM go_user_tbl WHERE username = $1`. -/
def deleteRows (t : Table) (u : String) : Table :=
  t.filter (fun v => v.username != u)

/-- Ordering used by `ORDER BY username`. -/
def byUsername (a b : User) : Prop := a.username ≤ b.username

instance : DecidableRel byUsername :=
  fun a b => inferInstanceAs (Decidable (a.username ≤ b.username))

instance : IsTotal User byUsername :=
  ⟨fun a b => le_total a.username b.username⟩

instance : IsTrans User byUsername :=
  ⟨fun _ _ _ h1 h2 => le_trans h1 h2⟩

/-- `SELECT ... FROM go_user_tbl ORDER BY username`: the rows sorted in
ascending order of the `username` column. -/
def sortByUsername (t : Table) : Table :=
  t.insertionSort byUsername

/-- A Go slice: `none` is the nil slice, `some l` a non-nil slice with
elements `l`. `encoding/json` renders nil as `null` and a non-nil empty
slice as `[]`, so the distinction is observable on the wire. -/
abbrev GoSlice (α : Type) : Type := Option (List α)

/-- A small JSON value AST, enough to state what `encoding/json`
produces for a user slice. -/
inductive Json where
  | null : Json
  | str (s : String) : Json
  | num (n : Int) : Json
  | arr (elems : List Json) : Json
  | obj (fields : List (String × Json)) : Json
deriving Repr

/-- JSON object for one `User` row, per the struct's json tags. -/
def encodeUserJson (u : User) : Json :=
  Json.obj
    [("username", Json.str u.username), ("name", Json.str u.name),
     ("email", Json.str u.email), ("age", Json.num u.age),
     ("created_at", Json.num (Int.ofNat u.createdAt)),
     ("updated_at", Json.num (Int.ofNat u.updatedAt))]

/-- `encoding/json` on a `[]User` value: nil serializes as `null`, a
non-nil slice as an array. -/
def encodeUsers : GoSlice User → Json
  | none => Json.null
  | some l => Json.arr (l.map encodeUserJson)

/-- `UserRepository.GetUserByUsername` (oteltracer variant): enriches
the ambient span with the SELECT metadata, then runs the query;
`sql.ErrNoRows` is translated to the sentinel error string
`"user not found"`. -/
def repoGetUserByUsername (t : Table) (username : String) (sp : SpanData) :
    Except String User × SpanData :=
  let sp := setAttributes sp
    [("apm.db.operation", "SELECT"), ("apm.db.table", "go_user_tbl"),
     ("apm.db.query.parameter.username", username)]
  match findUser t username with
  | none => (Except.error "user not found", sp)
  | some u => (Except.ok u, sp)

/-- `UserRepository.CreateUser` (oteltracer variant): enriches the
ambient span with the INSERT metadata, then runs the insert. -/
def repoCreateUser (t : Table) (req : CreateUserRequest) (now : Nat)
    (sp : SpanData) : (Except String User × Table) × SpanData :=
  let sp := setAttributes sp
    [("apm.db.operation", "INSERT"), ("apm.db.table", "go_user_tbl")]
  match sqlInsertUser t req now with
  | Except.error e => ((Except.error ("error creating user: " ++ e), t), sp)
  | Except.ok (u, t2) => ((Except.ok u, t2), sp)

/-- `UserRepository.UpdateUser` (oteltracer variant): enriches the
ambient span with the UPDATE metadata; `sql.ErrNoRows` (no row matched)
becomes `"user not found"`, otherwise the updated row is returned. -/
def repoUpdateUser (t : Table) (username : String) (req : UpdateUserRequest)
    (now : Nat) (sp : SpanData) : (Except String User × Table) × SpanData :=
  let sp := setAttributes sp
    [("apm.db.operation", "UPDATE"), ("apm.db.table", "go_user_tbl"),
     ("apm.db.query.parameter.username", username)]
  match findUser t username with
  | none => ((Except.error "user not found", t), sp)
  | some old =>
      ((Except.ok (applyUpd req now old), updateTable t username req now), sp)

/-- `UserRepository.DeleteUser` (oteltracer variant): enriches the
ambient span with the DELETE metadata, executes the delete, and maps
`rowsAffected == 0` to `"user not found"`. -/
def repoDeleteUser (t : Table) (username : String) (sp : SpanData) :
    (Except String Unit × Table) × SpanData :=
  let sp := setAttributes sp
    [("apm.db.operation", "DELETE"), ("apm.db.table", "go_user_tbl"),
     ("apm.db.query.parameter.username", username)]
  let t2 := deleteRows t username
  let rowsAffected := t.length - t2.length
  if rowsAffected == 0 then ((Except.error "user not found", t2), sp)
  else ((Except.ok (), t2), sp)

/-- `UserRepository.GetAllUsers` (oteltracer variant): enriches the
ambient span with the SELECT metadata and returns all rows ordered by
username. The Go code initializes `users := []User{}` before scanning,
so the returned slice is never nil. -/
def repoGetAllUsers (t : Table) (sp : SpanData) :
    Except String (GoSlice User) × SpanData :=
  let sp := setAttributes sp
    [("apm.db.operation", "SELECT"), ("apm.db.table", "go_user_tbl")]
  (Except.ok (some (sortByUsername t)), sp)

/-- HTTP methods the mux closure in main.go discriminates on. -/
inductive Method where
  | GET | POST | PUT | DELETE | OTHER
deriving DecidableEq, Repr

/-- Textual method name used for the `apm.http.method` attribute. -/
def methodName : Method → String
  | Method.GET => "GET"
  | Method.POST => "POST"
  | Method.PUT => "PUT"
  | Method.DELETE => "DELETE"
  | Method.OTHER => "OTHER"

/-- Outcome of running a handler: HTTP status, response entity (item or
list), final state of the ambient span handle, number of repository
calls made, number of `span.RecordError` invocations made, and the
resulting table state. -/
structure HResult where
  status : Nat
  body : Option User
  listBody : Option (GoSlice User)
  span : SpanData
  storeCalls : Nat
  recCalls : Nat
  table : Table
deriving Repr

/-- `strings.Trim(path, "/")` for the single cut-set character used. -/
def trimChar (s : String) (c : Char) : String :=
  String.mk
    (((s.toList.dropWhile (fun x => x == c)).reverse.dropWhile
        (fun x => x == c)).reverse)

/-- Splitting a character list on a separator character, with Go
`strings.Split` semantics for a one-character separator: the empty
input yields one empty field. -/
def splitChar (c : Char) : List Char → List (List Char)
  | [] => [[]]
  | x :: xs =>
      let r := splitChar c xs
      if x == c then [] :: r
      else
        match r with
        | [] => [[x]]
        | y :: ys => (x :: y) :: ys

/-- `strings.Split(s, "/")` for the one-character separator the code
uses. -/
def goSplit (s : String) (c : Char) : List String :=
  (splitChar c s.toList).map String.mk

/-- Boolean list-level test that the first list is an initial segment
of the second. -/
def isPrefOf : List Char → List Char → Bool
  | [], _ => true
  | _ :: _, [] => false
  | x :: xs, y :: ys => x == y && isPrefOf xs ys

/-- `strings.TrimPrefix(s, p)`. -/
def trimPre (s p : String) : String :=
  if isPrefOf p.toList s.toList then String.mk (s.toList.drop p.toList.length)
  else s

/-- `extractUsernameFromPath` (handlers.go): splits the trimmed path on
`/` and takes the second segment; errors when there is no second
segment or it is empty. -/
def extractUsernameFromPath (path : String) : Except Unit String :=
  let parts := goSplit (trimChar path '/') '/'
  if parts.length < 2 then Except.error ()
  else
    let username := parts.getD 1 ""
    if username = "" then Except.error ()
    else Except.ok username

/-- `UserHandler.GetUser` (oteltracer handlers.go): resolve the ambient
span, enrich with request attributes, check the method, extract the
username, call the repository, and translate `"user not found"` to 404;
any other repository error is recorded on the span and surfaced as
500. -/
def handlerGetUser (t : Table) (ctx : Ctx) (m : Method) (path : String) :
    HResult :=
  let span := spanFromContext ctx
  let span := setAttributes span
    [("apm.http.method", methodName m), ("apm.http.url", path),
     ("apm.operation", "get_user")]
  if m ≠ Method.GET then
    { status := 405, body := none, listBody := none, span := span
      storeCalls := 0, recCalls := 0, table := t }
  else
    match extractUsernameFromPath path with
    | Except.error _ =>
        { status := 400, body := none, listBody := none, span := span
          storeCalls := 0, recCalls := 0, table := t }
    | Except.ok username =>
        let span := setAttr span "apm.user.username" username
        match repoGetUserByUsername t username span with
        | (Except.error e, sp2) =>
            if e == "user not found" then
              { status := 404, body := none, listBody := none, span := sp2
                storeCalls := 1, recCalls := 0, table := t }
            else
              let sp3 := recordErrorSpan sp2 e
              { status := 500, body := none, listBody := none, span := sp3
                storeCalls := 1, recCalls := 1, table := t }
        | (Except.ok u, sp2) =>
            { status := 200, body := some u, listBody := none, span := sp2
              storeCalls := 1, recCalls := 0, table := t }

/-- `UserHandler.CreateUser` (oteltracer handlers.go): the request body
is the decode result (`none` models a body `json.Decode` rejects). -/
def handlerCreateUser (t : Table) (ctx : Ctx) (m : Method) (path : String)
    (body : Option CreateUserRequest) (now : Nat) : HResult :=
  let span := spanFromContext ctx
  let span := setAttributes span
    [("apm.http.method", methodName m), ("apm.http.url", path),
     ("apm.operation", "create_user")]
  if m ≠ Method.POST then
    { status := 405, body := none, listBody := none, span := span
      storeCalls := 0, recCalls := 0, table := t }
  else
    match body with
    | none =>
        { status := 400, body := none, listBody := none, span := span
          storeCalls := 0, recCalls := 0, table := t }
    | some req =>
        let span := setAttributes span
          [("apm.user.username", req.username), ("apm.user.email", req.email)]
        if req.username = "" ∨ req.name = "" ∨ req.email = "" ∨ req.age ≤ 0 then
          { status := 400, body := none, listBody := none, span := span
            storeCalls := 0, recCalls := 0, table := t }
        else
          match repoCreateUser t req now span with
          | ((Except.error e, t2), sp2) =>
              let sp3 := recordErrorSpan sp2 e
              { status := 500, body := none, listBody := none, span := sp3
                storeCalls := 1, recCalls := 1, table := t2 }
          | ((Except.ok u, t2), sp2) =>
              { status := 201, body := some u, listBody := none, span := sp2
                storeCalls := 1, recCalls := 0, table := t2 }

/-- `UserHandler.GetAllUsers` (oteltracer handlers.go). -/
def handlerGetAllUsers (t : Table) (ctx : Ctx) (m : Method) (path : String) :
    HResult :=
  let span := spanFromContext ctx
  let span := setAttributes span
    [("apm.http.method", methodName m), ("apm.http.url", path),
     ("apm.operation", "get_all_users")]
  if m ≠ Method.GET then
    { status := 405, body := none, listBody := none, span := span
      storeCalls := 0, recCalls := 0, table := t }
  else
    match repoGetAllUsers t span with
    | (Except.error e, sp2) =>
        let sp3 := recordErrorSpan sp2 e
        { status := 500, body := none, listBody := none, span := sp3
          storeCalls := 1, recCalls := 1, table := t }
    | (Except.ok users, sp2) =>
        { status := 200, body := none, listBody := some users, span := sp2
          storeCalls := 1, recCalls := 0, table := t }

/-- `UserHandler.UpdateUser` (oteltracer handlers.go). -/
def handlerUpdateUser (t : Table) (ctx : Ctx) (m : Method) (path : String)
    (body : Option UpdateUserRequest) (now : Nat) : HResult :=
  let span := spanFromContext ctx
  let span := setAttributes span
    [("apm.http.method", methodName m), ("apm.http.url", path),
     ("apm.operation", "update_user")]
  if m ≠ Method.PUT then
    { status := 405, body := none, listBody := none, span := span
      storeCalls := 0, recCalls := 0, table := t }
  else
    match extractUsernameFromPath path with
    | Except.error _ =>
        { status := 400, body := none, listBody := none, span := span
          storeCalls := 0, recCalls := 0, table := t }
    | Except.ok username =>
        let span := setAttr span "apm.user.username" username
        match body with
        | none =>
            { status := 400, body := none, listBody := none, span := span
              storeCalls := 0, recCalls := 0, table := t }
        | some req =>
            if req.name = "" ∨ req.email = "" ∨ req.age ≤ 0 then
              { status := 400, body := none, listBody := none, span := span
                storeCalls := 0, recCalls := 0, table := t }
            else
              match repoUpdateUser t username req now span with
              | ((Except.error e, t2), sp2) =>
                  if e == "user not found" then
                    { status := 404, body := none, listBody := none
                      span := sp2, storeCalls := 1, recCalls := 0
                      table := t2 }
                  else
                    let sp3 := recordErrorSpan sp2 e
                    { status := 500, body := none, listBody := none
                      span := sp3, storeCalls := 1, recCalls := 1
                      table := t2 }
              | ((Except.ok u, t2), sp2) =>
                  { status := 200, body := some u, listBody := none
                    span := sp2, storeCalls := 1, recCalls := 0, table := t2 }

/-- `UserHandler.DeleteUser` (oteltracer handlers.go). -/
def handlerDeleteUser (t : Table) (ctx : Ctx) (m : Method) (path : String) :
    HResult :=
  let span := spanFromContext ctx
  let span := setAttributes span
    [("apm.http.method", methodName m), ("apm.http.url", path),
     ("apm.operation", "delete_user")]
  if m ≠ Method.DELETE then
    { status := 405, body := none, listBody := none, span := span
      storeCalls := 0, recCalls := 0, table := t }
  else
    match extractUsernameFromPath path with
    | Except.error _ =>
        { status := 400, body := none, listBody := none, span := span
          storeCalls := 0, recCalls := 0, table := t }
    | Except.ok username =>
        let span := setAttr span "apm.user.username" username
        match repoDeleteUser t username span with
        | ((Except.error e, t2), sp2) =>
            if e == "user not found" then
              { status := 404, body := none, listBody := none, span := sp2
                storeCalls := 1, recCalls := 0, table := t2 }
            else
              let sp3 := recordErrorSpan sp2 e
              { status := 500, body := none, listBody := none, span := sp3
                storeCalls := 1, recCalls := 1, table := t2 }
        | ((Except.ok _, t2), sp2) =>
            { status := 204, body := none, listBody := none, span := sp2
              storeCalls := 1, recCalls := 0, table := t2 }

/-- Outcome of the dispatcher closure: the handler result plus whether
a handler was invoked at all. -/
structure DResult where
  res : HResult
  handlerCalled : Bool
deriving Repr

/-- The `/users/` route closure from main.go: trim the `/users/` path
part; an empty remainder routes by method to the collection-level
handlers, a non-empty remainder to the item-level handlers; any other
method yields 405 without invoking a handler. -/
def usersRoute (t : Table) (ctx : Ctx) (m : Method) (path : String)
    (cbody : Option CreateUserRequest) (ubody : Option UpdateUserRequest)
    (now : Nat) : DResult :=
  let username := trimPre path "/users/"
  if username = "" then
    if m = Method.GET then
      { res := handlerGetAllUsers t ctx m path, handlerCalled := true }
    else if m = Method.POST then
      { res := handlerCreateUser t ctx m path cbody now, handlerCalled := true }
    else
      { res := { status := 405, body := none, listBody := none
                 span := spanFromContext ctx, storeCalls := 0
                 recCalls := 0, table := t }
        handlerCalled := false }
  else
    if m = Method.GET then
      { res := handlerGetUser t ctx m path, handlerCalled := true }
    else if m = Method.PUT then
      { res := handlerUpdateUser t ctx m path ubody now, handlerCalled := true }
    else if m = Method.DELETE then
      { res := handlerDeleteUser t ctx m path, handlerCalled := true }
    else
      { res := { status := 405, body := none, listBody := none
                 span := spanFromContext ctx, storeCalls := 0
                 recCalls := 0, table := t }
        handlerCalled := false }

/-- Result of the tracer.Start-based (otelapi) code paths, with the
`End` calls made on each span handle counted per exit path: `ownEnds`
counts `End` on the function's own span, `repoEnds` on the repository
call's span. -/
structure TracedResult where
  status : Nat
  ownEnds : Nat
  repoEnds : Nat
  storeCalls : Nat
deriving DecidableEq, Repr

/-- `UserRepository.CreateUser` (otelapi variant): starts its own span
with `tracer.Start` and ends it with `defer span.End()`; the second
component counts the `End` calls on that span — the deferred call fires
once at every exit. -/
def repoCreateUserTraced (ctx : Ctx) (t : Table) (req : CreateUserRequest)
    (now : Nat) (ft fs : Nat) : (Except String User × Table) × Nat :=
  let _ctxSpan := startSpan ctx "db:CreateUser" ft fs
  match sqlInsertUser t req now with
  | Except.error e => ((Except.error ("error creating user: " ++ e), t), 0 + 1)
  | Except.ok (u, t2) => ((Except.ok u, t2), 0 + 1)

/-- `UserHandler.CreateUser` (tracer.Start variant, otelapi handlers):
starts its own span with a deferred `End`, validates, and delegates to
the traced repository; every early return still fires the deferred
`End` exactly once. -/
def handlerCreateUserTraced (ctx : Ctx) (t : Table) (m : Method)
    (body : Option CreateUserRequest) (now ft fs ft2 fs2 : Nat) :
    TracedResult :=
  if m ≠ Method.POST then
    { status := 405, ownEnds := 0 + 1, repoEnds := 0, storeCalls := 0 }
  else
    match body with
    | none => { status := 400, ownEnds := 0 + 1, repoEnds := 0, storeCalls := 0 }
    | some req =>
        if req.username = "" ∨ req.name = "" ∨ req.email = "" ∨ req.age ≤ 0 then
          { status := 400, ownEnds := 0 + 1, repoEnds := 0, storeCalls := 0 }
        else
          match repoCreateUserTraced (startSpan ctx "CreateUser" ft fs).fst
              t req now ft2 fs2 with
          | ((Except.error _, _), rEnds) =>
              { status := 500, ownEnds := 0 + 1, repoEnds := rEnds, storeCalls := 1 }
          | ((Except.ok _, _), rEnds) =>
              { status := 201, ownEnds := 0 + 1, repoEnds := rEnds, storeCalls := 1 }

/-- A concrete recording ambient span, as the auto-instrumentation
middleware would have established before a handler runs. -/
def sampleSpan : SpanData :=
  { traceId := 1, spanId := 2, parent := none, recording := true
    spanName := "srv", attrs := [], errors := [] }

/-- A carrier holding the concrete recording span. -/
def ctxRec : Ctx := { ambient := some sampleSpan }

theorem setAttr_of_not_recording (sp : SpanData) (k v : String)
    (h : sp.recording = false) : setAttr sp k v = sp := by
  simp [setAttr, h]

theorem setAttr_recording_eq (sp : SpanData) (k v : String) :
    (setAttr sp k v).recording = sp.recording := by
  unfold setAttr; split <;> rfl

theorem setAttr_errors (sp : SpanData) (k v : String) :
    (setAttr sp k v).errors = sp.errors := by
  unfold setAttr; split <;> rfl

theorem setAttributes_of_not_recording (l : List (String × String)) :
    ∀ sp : SpanData, sp.recording = false → setAttributes sp l = sp := by
  induction l with
  | nil => intro sp _; rfl
  | cons p ps ih =>
      intro sp h
      show setAttributes (setAttr sp p.fst p.snd) ps = sp
      rw [setAttr_of_not_recording sp p.fst p.snd h]
      exact ih sp h

theorem setAttributes_errors (l : List (String × String)) :
    ∀ sp : SpanData, (setAttributes sp l).errors = sp.errors := by
  induction l with
  | nil => intro sp; rfl
  | cons p ps ih =>
      intro sp
      show (setAttributes (setAttr sp p.fst p.snd) ps).errors = sp.errors
      rw [ih, setAttr_errors]

theorem setAttributes_noop (l : List (String × String)) :
    setAttributes noopSpan l = noopSpan :=
  setAttributes_of_not_recording l noopSpan rfl

theorem recordErrorSpan_noop (e : String) :
    recordErrorSpan noopSpan e = noopSpan := rfl

theorem repoGetUserByUsername_span_noop (t : Table) (u : String) :
    (repoGetUserByUsername t u noopSpan).snd = noopSpan := by
  unfold repoGetUserByUsername
  rw [setAttributes_noop]
  cases findUser t u <;> rfl

theorem findUser_username (t : Table) (u : String) (x : User)
    (h : findUser t u = some x) : x.username = u := by
  unfold findUser at h
  have h2 := List.find?_some (p := fun v : User => v.username == u) h
  simpa using h2

theorem findUser_deleteRows (t : Table) (u : String) :
    findUser (deleteRows t u) u = none := by
  simp only [findUser, deleteRows, List.find?_eq_none, List.mem_filter]
  intro x hx
  simpa using hx.right

theorem deleteRows_of_absent (t : Table) (u : String)
    (h : findUser t u = none) : deleteRows t u = t := by
  simp only [findUser, List.find?_eq_none] at h
  simp only [deleteRows, List.filter_eq_self]
  intro x hx
  simpa using h x hx

theorem applyUpd_username (req : UpdateUserRequest) (now : Nat) (v : User) :
    (applyUpd req now v).username = v.username := rfl

theorem findUser_updateTable (t : Table) (u : String)
    (req : UpdateUserRequest) (now : Nat) :
    findUser (updateTable t u req now) u =
      (findUser t u).map (applyUpd req now) := by
  induction t with
  | nil => rfl
  | cons v vs ih =>
      by_cases h : (v.username == u) = true
      · have hhead :
            (if (v.username == u) = true then applyUpd req now v else v) =
              applyUpd req now v := by simp [h]
        have hpa : ((applyUpd req now v).username == u) = true := by
          simpa [applyUpd] using h
        simp only [findUser, updateTable, List.map_cons, hhead]
        rw [List.find?_cons_of_pos (p := fun w : User => w.username == u) _ hpa,
            List.find?_cons_of_pos (p := fun w : User => w.username == u) _ h]
        rfl
      · have hhead :
            (if (v.username == u) = true then applyUpd req now v else v) = v := by
          simp [h]
        simp only [findUser, updateTable, List.map_cons, hhead]
        rw [List.find?_cons_of_neg (p := fun w : User => w.username == u) _ h,
            List.find?_cons_of_neg (p := fun w : User => w.username == u) _ h]
        exact ih

theorem sortByUsername_sorted (t : Table) :
    List.Sorted byUsername (sortByUsername t) :=
  List.sorted_insertionSort byUsername t

theorem sortByUsername_nil : sortByUsername [] = [] := rfl

theorem sqlInsertUser_ok (t : Table) (req : CreateUserRequest) (now : Nat)
    (u : User) (t2 : Table) (h : sqlInsertUser t req now = Except.ok (u, t2)) :
    u = { username := req.username, name := req.name, email := req.email
          age := req.age, createdAt := now, updatedAt := now } ∧
      t2 = t ++ [u] := by
  unfold sqlInsertUser at h
  split at h
  · cases h
  · split at h
    · cases h
    · cases h
      exact ⟨rfl, rfl⟩

theorem repoCreateUser_ok (t : Table) (req : CreateUserRequest) (now : Nat)
    (sp sp2 : SpanData) (u : User) (t2 : Table)
    (h : repoCreateUser t req now sp = ((Except.ok u, t2), sp2)) :
    sqlInsertUser t req now = Except.ok (u, t2) := by
  unfold repoCreateUser at h
  rcases hq : sqlInsertUser t req now with e | ⟨u0, t0⟩ <;> rw [hq] at h
  · cases h
  · injection h with h1 h2
    injection h1 with h3 h4
    injection h3 with h5
    rw [h5, h4]

theorem repoGetUserByUsername_absent (t : Table) (u : String)
    (h : findUser t u = none) :
    ∀ sp : SpanData, repoGetUserByUsername t u sp =
      (Except.error "user not found",
       setAttributes sp
         [("apm.db.operation", "SELECT"), ("apm.db.table", "go_user_tbl"),
          ("apm.db.query.parameter.username", u)]) := by
  intro sp
  unfold repoGetUserByUsername
  rw [h]

theorem repoDeleteUser_table (t : Table) (u : String) (sp : SpanData) :
    ((repoDeleteUser t u sp).fst).snd = deleteRows t u := by
  simp only [repoDeleteUser]
  split <;> rfl

theorem repoDeleteUser_absent (t : Table) (u : String)
    (h : findUser t u = none) :
    ∀ sp : SpanData, repoDeleteUser t u sp =
      ((Except.error "user not found", t),
       setAttributes sp
         [("apm.db.operation", "DELETE"), ("apm.db.table", "go_user_tbl"),
          ("apm.db.query.parameter.username", u)]) := by
  intro sp
  simp only [repoDeleteUser]
  rw [deleteRows_of_absent t u h]
  simp

theorem repoUpdateUser_absent (t : Table) (u : String)
    (req : UpdateUserRequest) (now : Nat)
    (h : findUser t u = none) :
    ∀ sp : SpanData, repoUpdateUser t u req now sp =
      ((Except.error "user not found", t),
       setAttributes sp
         [("apm.db.operation", "UPDATE"), ("apm.db.table", "go_user_tbl"),
          ("apm.db.query.parameter.username", u)]) := by
  intro sp
  unfold repoUpdateUser
  rw [h]

/-- C3 (confirmed): for every valid create payload, a successful Create
returns an entity whose username equals the submitted username and
whose creation and modification timestamps are both set to the insert
time and equal to each other. -/
theorem c3_create_identity_and_timestamps (t : Table)
    (req : CreateUserRequest) (now : Nat) (sp sp2 : SpanData) (u : User)
    (t2 : Table)
    (_hv : req.username ≠ "" ∧ req.name ≠ "" ∧ req.email ≠ "" ∧ 0 < req.age)
    (h : repoCreateUser t req now sp = ((Except.ok u, t2), sp2)) :
    u.username = req.username ∧ u.createdAt = now ∧ u.updatedAt = now ∧
      u.createdAt = u.updatedAt := by
  have hok := repoCreateUser_ok t req now sp sp2 u t2 h
  have hfields := (sqlInsertUser_ok t req now u t2 hok).left
  rw [hfields]
  exact ⟨rfl, rfl, rfl, rfl⟩

/-- C3 witness: the theorem applied to a concrete insert into the empty
table. -/
theorem c3_witness :
    ({ username := "u1", name := "A", email := "a@x.com", age := 30
       createdAt := 5, updatedAt := 5 } : User).username = "u1" ∧
    ({ username := "u1", name := "A", email := "a@x.com", age := 30
       createdAt := 5, updatedAt := 5 } : User).createdAt = 5 ∧
    ({ username := "u1", name := "A", email := "a@x.com", age := 30
       createdAt := 5, updatedAt := 5 } : User).updatedAt = 5 ∧
    ({ username := "u1", name := "A", email := "a@x.com", age := 30
       createdAt := 5, updatedAt := 5 } : User).createdAt =
      ({ username := "u1", name := "A", email := "a@x.com", age := 30
         createdAt := 5, updatedAt := 5 } : User).updatedAt :=
  c3_create_identity_and_timestamps [] ⟨"u1", "A", "a@x.com", 30⟩ 5
    noopSpan noopSpan
    { username := "u1", name := "A", email := "a@x.com", age := 30
      createdAt := 5, updatedAt := 5 }
    [{ username := "u1", name := "A", email := "a@x.com", age := 30
       createdAt := 5, updatedAt := 5 }]
    ⟨by decide, by decide, by decide, by decide⟩ rfl

/-- C4 (confirmed): Update on an existing identity returns and stores
the row with only name, email, age and the modification timestamp
changed; the username and the creation timestamp are those of the old
row. -/
theorem c4_update_frame (t : Table) (username : String)
    (req : UpdateUserRequest) (now : Nat) (sp : SpanData) (old : User)
    (h : findUser t username = some old) :
    (repoUpdateUser t username req now sp).fst =
      (Except.ok (applyUpd req now old), updateTable t username req now) ∧
    (applyUpd req now old).username = old.username ∧
    (applyUpd req now old).createdAt = old.createdAt ∧
    (applyUpd req now old).name = req.name ∧
    (applyUpd req now old).email = req.email ∧
    (applyUpd req now old).age = req.age ∧
    (applyUpd req now old).updatedAt = now ∧
    findUser (updateTable t username req now) username =
      some (applyUpd req now old) := by
  refine ⟨?_, rfl, rfl, rfl, rfl, rfl, rfl, ?_⟩
  · unfold repoUpdateUser
    rw [h]
  · rw [findUser_updateTable, h]
    rfl

/-- C4 witness: the theorem applied to a concrete one-row table. -/
theorem c4_witness :
    (repoUpdateUser
        [{ username := "u1", name := "A", email := "a@x.com", age := 30
           createdAt := 5, updatedAt := 5 }] "u1" ⟨"B", "b@x.com", 31⟩ 9
        noopSpan).fst =
      (Except.ok
        { username := "u1", name := "B", email := "b@x.com", age := 31
          createdAt := 5, updatedAt := 9 },
       [{ username := "u1", name := "B", email := "b@x.com", age := 31
          createdAt := 5, updatedAt := 9 }]) := by
  have h := c4_update_frame
    [{ username := "u1", name := "A", email := "a@x.com", age := 30
       createdAt := 5, updatedAt := 5 }] "u1" ⟨"B", "b@x.com", 31⟩ 9
    noopSpan
    { username := "u1", name := "A", email := "a@x.com", age := 30
      createdAt := 5, updatedAt := 5 } rfl
  exact h.left

/-- C9 (confirmed): the Span Creation Operation with no ambient span
yields a root span carrying the freshly minted non-zero trace identity;
with an ambient span it yields a child sharing the ambient trace
identity. -/
theorem c9_span_creation (ctx : Ctx) (nm : String) (ft fs : Nat)
    (hft : ft ≠ 0) :
    (ctx.ambient = none →
      (startSpan ctx nm ft fs).snd.traceId = ft ∧
      (startSpan ctx nm ft fs).snd.traceId ≠ 0 ∧
      (startSpan ctx nm ft fs).snd.parent = none) ∧
    (∀ p : SpanData, ctx.ambient = some p →
      (startSpan ctx nm ft fs).snd.traceId = p.traceId ∧
      (startSpan ctx nm ft fs).snd.parent = some p.spanId) := by
  constructor
  · intro h
    unfold startSpan
    rw [h]
    exact ⟨rfl, hft, rfl⟩
  · intro p h
    unfold startSpan
    rw [h]
    exact ⟨rfl, rfl⟩

/-- C9 witness: concrete root creation from the empty carrier and
child creation under a concrete ambient span. -/
theorem c9_witness :
    (startSpan ctxEmpty "s" 7 8).snd.traceId = 7 ∧
    (startSpan ctxEmpty "s" 7 8).snd.parent = none ∧
    (startSpan { ambient := some sampleSpan } "s" 7 8).snd.traceId =
      sampleSpan.traceId ∧
    (startSpan { ambient := some sampleSpan } "s" 7 8).snd.parent =
      some sampleSpan.spanId := by
  have h1 := c9_span_creation ctxEmpty "s" 7 8 (by decide)
  have h2 := c9_span_creation { ambient := some sampleSpan } "s" 7 8
    (by decide)
  exact ⟨(h1.left rfl).left, (h1.left rfl).right.right,
    (h2.right sampleSpan rfl).left, (h2.right sampleSpan rfl).right⟩

/-- C10 (confirmed): List returns the rows sorted in ascending username
order and succeeds with a non-nil slice; on the empty store the result
is the empty slice, which serializes as the empty JSON array, never
null. -/
theorem c10_list_sorted_and_empty (t : Table) (sp : SpanData) (ctx : Ctx)
    (path : String) :
    (repoGetAllUsers t sp).fst = Except.ok (some (sortByUsername t)) ∧
    List.Sorted byUsername (sortByUsername t) ∧
    (handlerGetAllUsers t ctx Method.GET path).status = 200 ∧
    (handlerGetAllUsers t ctx Method.GET path).listBody =
      some (some (sortByUsername t)) ∧
    (t = [] →
      sortByUsername t = [] ∧
      encodeUsers (some (sortByUsername t)) = Json.arr [] ∧
      encodeUsers (some (sortByUsername t)) ≠ Json.null) := by
  refine ⟨rfl, sortByUsername_sorted t, rfl, rfl, ?_⟩
  intro h
  subst h
  refine ⟨rfl, rfl, ?_⟩
  intro hcon
  exact Json.noConfusion hcon

theorem handlerGetUser_absent (t : Table) (ctx : Ctx) (path u : String)
    (hpath : extractUsernameFromPath path = Except.ok u)
    (habs : findUser t u = none) :
    (handlerGetUser t ctx Method.GET path).status = 404 ∧
    (handlerGetUser t ctx Method.GET path).recCalls = 0 ∧
    (handlerGetUser t ctx Method.GET path).span.errors =
      (spanFromContext ctx).errors := by
  simp [handlerGetUser, hpath, repoGetUserByUsername_absent t u habs,
    setAttributes_errors, setAttr_errors]

theorem handlerUpdateUser_absent (t : Table) (ctx : Ctx) (path u : String)
    (req : UpdateUserRequest) (now : Nat)
    (hpath : extractUsernameFromPath path = Except.ok u)
    (habs : findUser t u = none)
    (hreq : req.name ≠ "" ∧ req.email ≠ "" ∧ 0 < req.age) :
    (handlerUpdateUser t ctx Method.PUT path (some req) now).status = 404 ∧
    (handlerUpdateUser t ctx Method.PUT path (some req) now).recCalls = 0 ∧
    (handlerUpdateUser t ctx Method.PUT path (some req) now).span.errors =
      (spanFromContext ctx).errors := by
  have hcond : ¬ (req.name = "" ∨ req.email = "" ∨ req.age ≤ 0) := by
    push_neg
    exact hreq
  simp [handlerUpdateUser, hpath, hcond,
    repoUpdateUser_absent t u req now habs, setAttributes_errors,
    setAttr_errors]

theorem handlerDeleteUser_absent (t : Table) (ctx : Ctx) (path u : String)
    (hpath : extractUsernameFromPath path = Except.ok u)
    (habs : findUser t u = none) :
    (handlerDeleteUser t ctx Method.DELETE path).status = 404 ∧
    (handlerDeleteUser t ctx Method.DELETE path).recCalls = 0 ∧
    (handlerDeleteUser t ctx Method.DELETE path).span.errors =
      (spanFromContext ctx).errors := by
  simp [handlerDeleteUser, hpath, repoDeleteUser_absent t u habs,
    setAttributes_errors, setAttr_errors]

/-- C1 (corrected): counterexample — a concrete GET on a nonexistent
identifier is surfaced as 404, but the store-layer error is recorded on
the active recording span zero times, not exactly once as claimed. -/
theorem c1_counterexample :
    (handlerGetUser [] ctxRec Method.GET "/users/doesnotexist").status = 404 ∧
    (handlerGetUser [] ctxRec Method.GET "/users/doesnotexist").span.errors
      = [] ∧
    ¬ ((handlerGetUser [] ctxRec Method.GET
        "/users/doesnotexist").span.errors.length = 1) := by
  decide

/-- C1 (amended): for every Get, Update or Delete request targeting a
nonexistent identifier the operation is surfaced as 404 and the
store-layer error is recorded on the active span zero times —
`RecordError` is never invoked on the not-found path and the span's
error list is unchanged. -/
theorem c1_amended (t : Table) (ctx : Ctx) (path u : String)
    (req : UpdateUserRequest) (now : Nat)
    (hpath : extractUsernameFromPath path = Except.ok u)
    (habs : findUser t u = none)
    (hreq : req.name ≠ "" ∧ req.email ≠ "" ∧ 0 < req.age) :
    ((handlerGetUser t ctx Method.GET path).status = 404 ∧
     (handlerGetUser t ctx Method.GET path).recCalls = 0 ∧
     (handlerGetUser t ctx Method.GET path).span.errors =
       (spanFromContext ctx).errors) ∧
    ((handlerUpdateUser t ctx Method.PUT path (some req) now).status = 404 ∧
     (handlerUpdateUser t ctx Method.PUT path (some req) now).recCalls = 0 ∧
     (handlerUpdateUser t ctx Method.PUT path (some req) now).span.errors =
       (spanFromContext ctx).errors) ∧
    ((handlerDeleteUser t ctx Method.DELETE path).status = 404 ∧
     (handlerDeleteUser t ctx Method.DELETE path).recCalls = 0 ∧
     (handlerDeleteUser t ctx Method.DELETE path).span.errors =
       (spanFromContext ctx).errors) :=
  ⟨handlerGetUser_absent t ctx path u hpath habs,
   handlerUpdateUser_absent t ctx path u req now hpath habs hreq,
   handlerDeleteUser_absent t ctx path u hpath habs⟩

/-- C1 witness: the amended theorem applied to concrete requests on the
empty store under a recording ambient span. -/
theorem c1_witness :
    (handlerGetUser [] ctxRec Method.GET "/users/doesnotexist").recCalls
      = 0 ∧
    (handlerUpdateUser [] ctxRec Method.PUT "/users/doesnotexist"
      (some ⟨"B", "b@x.com", 31⟩) 9).status = 404 ∧
    (handlerDeleteUser [] ctxRec Method.DELETE
      "/users/doesnotexist").status = 404 := by
  have h := c1_amended [] ctxRec "/users/doesnotexist" "doesnotexist"
    ⟨"B", "b@x.com", 31⟩ 9 rfl rfl ⟨by decide, by decide, by decide⟩
  exact ⟨h.1.2.1, h.2.1.1, h.2.2.1⟩

theorem handlerGetUser_noctx_span (t : Table) (m : Method) (path : String) :
    (handlerGetUser t ctxEmpty m path).span = noopSpan := by
  have h0 : spanFromContext ctxEmpty = noopSpan := rfl
  simp only [handlerGetUser, h0, setAttributes_noop]
  split
  · rfl
  · split
    · rfl
    · rename_i username hpath2
      rw [setAttr_of_not_recording noopSpan _ _ rfl]
      rcases hq : repoGetUserByUsername t username noopSpan with ⟨res, sp2⟩
      have h2 : sp2 = noopSpan := by
        have h3 := repoGetUserByUsername_span_noop t username
        rw [hq] at h3
        exact h3
      cases res with
      | error e =>
          by_cases he : (e == "user not found") = true
          · simp [he, h2]
          · simp [he, h2, recordErrorSpan_noop]
      | ok v => simp [h2]

/-- C2 (confirmed): with no ambient span in the carrier, the registry
returns the no-op handle; enrichment and error recording on it are
total functions that leave it untouched, and a whole handler run under
the empty carrier ends with the span handle still the no-op span —
attribute writes are silently discarded with no observable effect. -/
theorem c2_noop_enrichment (attrs : List (String × String)) (e : String)
    (t : Table) (m : Method) (path : String) :
    spanFromContext ctxEmpty = noopSpan ∧
    setAttributes noopSpan attrs = noopSpan ∧
    recordErrorSpan noopSpan e = noopSpan ∧
    noopSpan.attrs = [] ∧ noopSpan.errors = [] ∧
    (handlerGetUser t ctxEmpty m path).span = noopSpan :=
  ⟨rfl, setAttributes_noop attrs, rfl, rfl, rfl,
   handlerGetUser_noctx_span t m path⟩

/-- C5 (confirmed): after a Delete of an identity, a Get of the same
identity yields the not-found error and is surfaced as 404, never as a
500 store error. -/
theorem c5_delete_then_get (t : Table) (username path : String)
    (sp : SpanData) (ctx : Ctx)
    (hpath : extractUsernameFromPath path = Except.ok username) :
    (repoGetUserByUsername (((repoDeleteUser t username sp).fst).snd)
        username sp).fst = Except.error "user not found" ∧
    (handlerGetUser (((repoDeleteUser t username sp).fst).snd) ctx
        Method.GET path).status = 404 ∧
    ¬ ((handlerGetUser (((repoDeleteUser t username sp).fst).snd) ctx
        Method.GET path).status = 500) := by
  have htab : ((repoDeleteUser t username sp).fst).snd =
      deleteRows t username := repoDeleteUser_table t username sp
  have habs : findUser (deleteRows t username) username = none :=
    findUser_deleteRows t username
  rw [htab]
  have hg := handlerGetUser_absent (deleteRows t username) ctx path username
    hpath habs
  refine ⟨?_, hg.1, ?_⟩
  · rw [repoGetUserByUsername_absent _ _ habs sp]
  · rw [hg.1]
    decide

/-- C5 witness: deleting the only row and fetching it again on a
concrete store. -/
theorem c5_witness :
    (handlerGetUser
      (((repoDeleteUser
          [{ username := "u1", name := "A", email := "a@x.com", age := 30
             createdAt := 5, updatedAt := 5 }] "u1" noopSpan).fst).snd)
      ctxRec Method.GET "/users/u1").status = 404 := by
  have h := c5_delete_then_get
    [{ username := "u1", name := "A", email := "a@x.com", age := 30
       createdAt := 5, updatedAt := 5 }] "u1" "/users/u1" noopSpan ctxRec
    rfl
  exact h.2.1

/-- C6 (confirmed): a payload failing required-field validation yields
400 with no repository call and no error recorded on the span, for both
Create and Update. -/
theorem c6_validation_rejected (t : Table) (ctx : Ctx) (path : String)
    (req : CreateUserRequest) (ureq : UpdateUserRequest) (u : String)
    (now : Nat)
    (hinv : req.username = "" ∨ req.name = "" ∨ req.email = "" ∨
      req.age ≤ 0)
    (hpath : extractUsernameFromPath path = Except.ok u)
    (huinv : ureq.name = "" ∨ ureq.email = "" ∨ ureq.age ≤ 0) :
    ((handlerCreateUser t ctx Method.POST path (some req) now).status = 400 ∧
     (handlerCreateUser t ctx Method.POST path (some req) now).storeCalls
       = 0 ∧
     (handlerCreateUser t ctx Method.POST path (some req) now).recCalls
       = 0 ∧
     (handlerCreateUser t ctx Method.POST path (some req) now).span.errors =
       (spanFromContext ctx).errors) ∧
    ((handlerUpdateUser t ctx Method.PUT path (some ureq) now).status = 400 ∧
     (handlerUpdateUser t ctx Method.PUT path (some ureq) now).storeCalls
       = 0 ∧
     (handlerUpdateUser t ctx Method.PUT path (some ureq) now).recCalls
       = 0 ∧
     (handlerUpdateUser t ctx Method.PUT path (some ureq) now).span.errors =
       (spanFromContext ctx).errors) := by
  constructor
  · simp [handlerCreateUser, hinv, setAttributes_errors]
  · simp [handlerUpdateUser, hpath, huinv, setAttributes_errors,
      setAttr_errors]

/-- C6 witness: concrete invalid payloads (empty username, empty name)
on the empty store. -/
theorem c6_witness :
    (handlerCreateUser [] ctxRec Method.POST "/users/u1"
      (some ⟨"", "A", "a@x.com", 30⟩) 5).status = 400 ∧
    (handlerCreateUser [] ctxRec Method.POST "/users/u1"
      (some ⟨"", "A", "a@x.com", 30⟩) 5).storeCalls = 0 ∧
    (handlerUpdateUser [] ctxRec Method.PUT "/users/u1"
      (some ⟨"", "b@x.com", 31⟩) 5).status = 400 := by
  have h := c6_validation_rejected [] ctxRec "/users/u1"
    ⟨"", "A", "a@x.com", 30⟩ ⟨"", "b@x.com", 31⟩ "u1" 5 (Or.inl rfl) rfl
    (Or.inl rfl)
  exact ⟨h.1.1, h.1.2.1, h.2.1⟩

theorem handlerGetUser_badpath (t : Table) (ctx : Ctx) (path : String)
    (hbad : extractUsernameFromPath path = Except.error ()) :
    (handlerGetUser t ctx Method.GET path).status = 400 ∧
    (handlerGetUser t ctx Method.GET path).storeCalls = 0 := by
  simp [handlerGetUser, hbad]

theorem handlerUpdateUser_badpath (t : Table) (ctx : Ctx) (path : String)
    (ub : Option UpdateUserRequest) (now : Nat)
    (hbad : extractUsernameFromPath path = Except.error ()) :
    (handlerUpdateUser t ctx Method.PUT path ub now).status = 400 ∧
    (handlerUpdateUser t ctx Method.PUT path ub now).storeCalls = 0 := by
  simp [handlerUpdateUser, hbad]

theorem handlerDeleteUser_badpath (t : Table) (ctx : Ctx) (path : String)
    (hbad : extractUsernameFromPath path = Except.error ()) :
    (handlerDeleteUser t ctx Method.DELETE path).status = 400 ∧
    (handlerDeleteUser t ctx Method.DELETE path).storeCalls = 0 := by
  simp [handlerDeleteUser, hbad]

/-- C7 (corrected): counterexample — for the malformed path `/users//`
(empty identifier) the dispatcher does invoke the item-level handler,
so the client error is not produced before any Handler call as
claimed; the 400 arises inside the handler, and the store is never
called. -/
theorem c7_counterexample :
    (usersRoute [] ctxRec Method.GET "/users//" none none 0).handlerCalled
      = true ∧
    (usersRoute [] ctxRec Method.GET "/users//" none none 0).res.status
      = 400 ∧
    (usersRoute [] ctxRec Method.GET "/users//" none none 0).res.storeCalls
      = 0 := by
  decide

/-- C7 (amended): for every inbound request with a malformed path
(empty identifier where one is required), a client error 400 is
returned before any store call and the persistence layer is never
reached; the error is produced by path extraction inside the invoked
handler, not by the dispatcher prior to dispatch. -/
theorem c7_amended (t : Table) (ctx : Ctx) (path : String)
    (cb : Option CreateUserRequest) (ub : Option UpdateUserRequest)
    (now : Nat)
    (hnz : ¬ trimPre path "/users/" = "")
    (hbad : extractUsernameFromPath path = Except.error ()) :
    ((usersRoute t ctx Method.GET path cb ub now).res.status = 400 ∧
     (usersRoute t ctx Method.GET path cb ub now).res.storeCalls = 0 ∧
     (usersRoute t ctx Method.GET path cb ub now).handlerCalled = true) ∧
    ((usersRoute t ctx Method.PUT path cb ub now).res.status = 400 ∧
     (usersRoute t ctx Method.PUT path cb ub now).res.storeCalls = 0 ∧
     (usersRoute t ctx Method.PUT path cb ub now).handlerCalled = true) ∧
    ((usersRoute t ctx Method.DELETE path cb ub now).res.status = 400 ∧
     (usersRoute t ctx Method.DELETE path cb ub now).res.storeCalls = 0 ∧
     (usersRoute t ctx Method.DELETE path cb ub now).handlerCalled
       = true) := by
  have hg := handlerGetUser_badpath t ctx path hbad
  have hu := handlerUpdateUser_badpath t ctx path ub now hbad
  have hd := handlerDeleteUser_badpath t ctx path hbad
  refine ⟨⟨?_, ?_, ?_⟩, ⟨?_, ?_, ?_⟩, ⟨?_, ?_, ?_⟩⟩ <;>
    simp [usersRoute, hnz, hg.1, hg.2, hu.1, hu.2, hd.1, hd.2]

/-- C7 witness: the amended theorem at the concrete malformed path
`/users//`. -/
theorem c7_witness :
    (usersRoute [] ctxRec Method.DELETE "/users//" none none 0).res.status
      = 400 ∧
    (usersRoute [] ctxRec Method.DELETE "/users//" none none
      0).res.storeCalls = 0 ∧
    (usersRoute [] ctxRec Method.DELETE "/users//" none none
      0).handlerCalled = true := by
  have h := c7_amended [] ctxRec "/users//" none none 0 (by decide) rfl
  exact h.2.2

theorem repoCreateUserTraced_ends (c : Ctx) (t : Table)
    (req : CreateUserRequest) (now a b : Nat) :
    (repoCreateUserTraced c t req now a b).snd = 1 := by
  unfold repoCreateUserTraced
  rcases hq : sqlInsertUser t req now with e | ⟨u0, t0⟩ <;> simp [hq]

/-- C8 (confirmed): on every exit path of the tracer.Start-based
handler and repository — success, validation failure, decode failure,
wrong method, or store error — the deferred `End` on each function's
own span fires exactly once, and the repository span is ended once per
repository call. -/
theorem c8_end_exactly_once (ctx : Ctx) (t : Table) (m : Method)
    (body : Option CreateUserRequest) (req : CreateUserRequest)
    (now ft fs ft2 fs2 : Nat) :
    (handlerCreateUserTraced ctx t m body now ft fs ft2 fs2).ownEnds = 1 ∧
    (handlerCreateUserTraced ctx t m body now ft fs ft2 fs2).repoEnds =
      (handlerCreateUserTraced ctx t m body now ft fs ft2 fs2).storeCalls ∧
    (repoCreateUserTraced ctx t req now ft fs).snd = 1 := by
  refine ⟨?_, ?_, repoCreateUserTraced_ends ctx t req now ft fs⟩
  · unfold handlerCreateUserTraced
    split
    · rfl
    · split
      · rfl
      · split
        · rfl
        · split <;> rfl
  · unfold handlerCreateUserTraced
    split
    · rfl
    · split
      · rfl
      · rename_i req2
        split
        · rfl
        · split <;> rename_i rEnds heq <;>
          · have h1 := repoCreateUserTraced_ends
              ((startSpan ctx "CreateUser" ft fs).fst) t req2 now ft2 fs2
            rw [heq] at h1
            simpa using h1

/-- C10 witness: the empty-store conclusions at the empty table. -/
theorem c10_witness :
    sortByUsername [] = [] ∧
    encodeUsers (some (sortByUsername [])) = Json.arr [] := by
  have h := c10_list_sorted_and_empty [] noopSpan ctxEmpty "/users/"
  exact ⟨(h.right.right.right.right rfl).left,
    (h.right.right.right.right rfl).right.left⟩

end GoOtel
